import Mathlib

/-!
Verification of the WalmartSearch filtered-pagination service against its
natural-language specification.

The JavaScript source (src/index.js) is shallowly embedded below:

* the per-product constraint evaluation (source function `filter`, lines
  107-140) becomes `productMatches` and `filter`, with JavaScript `NaN`
  comparison semantics made explicit through `jsLt`/`jsGt` over `Option ℚ`
  (`none` plays the role of `NaN`/`undefined`), and `parseFloat` together
  with the one-leading-character strip modelled by `jsParsedPrice`;
* the pagination engine (the body of the `/filter/:pagenumber/:pagesize`
  route handler, lines 147-239) becomes `getPage`, built from `innerLoop`
  (the do/while fetch-and-accumulate loop, lines 176-194), `recordMarker`
  (the marker-creation block, lines 196-221) and `outerLoop` (the for loop
  over output-page ordinals, lines 171-222);
* the upstream fetch (`getCatalog`, lines 38-65) is an explicit parameter
  of type `Int → Nat → Except Unit CatalogResponse`; a failing fetch
  (network error or undecodable body, the promise rejection paths) is
  `Except.error`.  The unbounded do/while loop is given explicit fuel: the
  `RunResult.noFuel` outcome marks runs on which the JavaScript loop would
  keep iterating beyond the supplied bound.
* the in-request cache of the previous fetch in the source (`prevPage`, lines
  179-188) is omitted: the fetch parameter is a pure function, so re-asking
  for the same page yields the same response and the cache is observationally
  transparent.
-/

namespace WalmartSearch

/-- Product record as served by the upstream catalog (`CatalogProduct`,
src lines 8-20).  The three text fields are `Option` because the source
destructures them with string defaults (line 117); `price` is kept as the
raw string the source parses; the two review numbers are `Option ℚ` so that
an absent field behaves as JavaScript `undefined`/`NaN` in comparisons. -/
structure CatalogProduct where
  productId : String
  productName : Option String
  shortDescription : Option String
  longDescription : Option String
  price : String
  reviewRating : Option ℚ
  reviewCount : Option ℚ
  inStock : Bool
deriving Repr, DecidableEq

/-- Caller-supplied constraints (`FilterParameters`, src lines 85-97),
every field optional. -/
structure FilterParameters where
  search : Option String
  minPrice : Option ℚ
  maxPrice : Option ℚ
  minReviewRating : Option ℚ
  maxReviewRating : Option ℚ
  minReviewCount : Option ℚ
  maxReviewCount : Option ℚ
  inStock : Option Bool
deriving Repr, DecidableEq

/-- JavaScript `a < b` where either side may be `undefined`/`NaN` (`none`):
any comparison involving `NaN` is false.  This is the semantics of the raw
comparisons on src lines 126-131. -/
def jsLt (a b : Option ℚ) : Bool :=
  match b with
  | none => false
  | some y =>
    match a with
    | none => false
    | some x => decide (x < y)

/-- JavaScript `a > b` with the same `NaN`-is-never-comparable rule. -/
def jsGt (a b : Option ℚ) : Bool :=
  match b with
  | none => false
  | some y =>
    match a with
    | none => false
    | some x => decide (y < x)

/-- Uppercasing of a character list, modelling `String.toUpperCase` (ASCII). -/
def toUpperL (l : List Char) : List Char := l.map Char.toUpper

/-- Substring test, modelling `String.includes`. -/
def listContainsSub (needle : List Char) : List Char → Bool
  | [] => needle.isEmpty
  | c :: t => needle.isPrefixOf (c :: t) || listContainsSub needle t

/-- Case-insensitive containment of an (already uppercased) search string in
an optional product field, with the empty-string default of the source (line 117). -/
def includesCI (field : Option String) (searchU : List Char) : Bool :=
  listContainsSub searchU (toUpperL ((field.getD ("")).data))

/-- Integer-part value of a digit list (most significant first). -/
def intVal (l : List Char) : ℚ :=
  l.foldl (fun a c => a * 10 + ((c.toNat - 48 : Nat) : ℚ)) 0

/-- Fractional-part value of a digit list. -/
def fracVal : List Char → ℚ
  | [] => 0
  | c :: t => (((c.toNat - 48 : Nat) : ℚ) + fracVal t) / 10

/-- Digit-list value as an integer (for exponents). -/
def expVal (l : List Char) : Int :=
  l.foldl (fun a c => a * 10 + ((c.toNat - 48 : Nat) : Int)) 0

/-- Power of ten with an integer exponent. -/
def tenPow (e : Int) : ℚ :=
  if 0 ≤ e then ((10 : ℚ)) ^ e.toNat else 1 / ((10 : ℚ)) ^ (-e).toNat

/-- Exponent suffix accepted by `parseFloat` (an `e`/`E` with optional sign;
missing exponent digits contribute a factor of one, as in JavaScript). -/
def parseExp (s : List Char) : Int :=
  match s with
  | c :: t =>
    if c = 'e' ∨ c = 'E' then
      match t with
      | d :: t2 =>
        if d = '-' then -(expVal (t2.takeWhile Char.isDigit))
        else if d = '+' then expVal (t2.takeWhile Char.isDigit)
        else expVal (t.takeWhile Char.isDigit)
      | [] => 0
    else 0
  | [] => 0

/-- JavaScript `parseFloat` on a character list: skip leading whitespace,
optional sign, decimal mantissa, optional exponent, ignore trailing junk;
`none` is `NaN` (no leading numeric prefix at all). -/
def jsParseFloat (s0 : List Char) : Option ℚ :=
  let s := s0.dropWhile Char.isWhitespace
  let sgn : ℚ :=
    match s with
    | c :: _ => if c = '-' then -1 else 1
    | [] => 1
  let sb :=
    match s with
    | c :: t => if c = '-' ∨ c = '+' then t else c :: t
    | [] => []
  let ip := sb.takeWhile Char.isDigit
  let s1 := sb.dropWhile Char.isDigit
  let fp :=
    match s1 with
    | c :: t => if c = '.' then t.takeWhile Char.isDigit else []
    | [] => []
  let s2 :=
    match s1 with
    | c :: t => if c = '.' then t.dropWhile Char.isDigit else s1
    | [] => []
  if ip = [] ∧ fp = [] then none
  else some (sgn * (intVal ip + fracVal fp) * tenPow (parseExp s2))

/-- Truth of `isNaN(price[0])` (src line 124): the first character of the
price string coerces to `NaN` unless it is a digit or whitespace; an empty
string gives `undefined`, which is `NaN`. -/
def jsIsNaNFirst (price : String) : Bool :=
  match price.data with
  | [] => true
  | c :: _ => !(c.isDigit || c.isWhitespace)

/-- Price characters actually handed to `parseFloat` (src line 124): one
leading character is stripped when it is not numeric. -/
def strippedPrice (price : String) : List Char :=
  if jsIsNaNFirst price then price.data.drop 1 else price.data

/-- Parsed product price, `none` meaning `NaN` (src line 124). -/
def jsParsedPrice (price : String) : Option ℚ :=
  jsParseFloat (strippedPrice price)

/-- Text-search hit (src lines 116-120): the uppercased search text occurs
in the name, the short description or the long description. -/
def searchHit (s : String) (product : CatalogProduct) : Bool :=
  let search := toUpperL s.data
  let hit := includesCI product.productName search
  let hit := hit || includesCI product.shortDescription search
  hit || includesCI product.longDescription search

/-- Constraint evaluation for one non-skipped product: the body of the
filter callback, src lines 109-132, with the `&=`/`|=` accumulation
translated to boolean conjunction/disjunction (the operands are booleans
or 0/1 numbers there).  The search block is guarded by JavaScript
truthiness of `params.search`, so an empty search string is skipped. -/
def productMatches (params : FilterParameters) (product : CatalogProduct) : Bool :=
  let retval := true
  let retval :=
    match params.search with
    | none => retval
    | some s => if s = "" then retval else retval && searchHit s product
  let price := jsParsedPrice product.price
  let retval := retval && !(jsLt price params.minPrice)
  let retval := retval && !(jsGt price params.maxPrice)
  let retval := retval && !(jsLt product.reviewRating params.minReviewRating)
  let retval := retval && !(jsGt product.reviewRating params.maxReviewRating)
  let retval := retval && !(jsLt product.reviewCount params.minReviewCount)
  let retval := retval && !(jsGt product.reviewCount params.maxReviewCount)
  retval && (!(params.inStock.getD false) || product.inStock)

/-- JavaScript truthiness of the optional resume identifier (`pId` on src
line 112): present and non-empty. -/
def strTruthy : Option String → Bool
  | none => false
  | some s => decide (s ≠ "")

/-- Source function `filter` (src lines 107-140): `Array.filter` with the
closure-mutated `waiting` flag threaded through the recursion.  While
`waiting` holds with a truthy `pId`, products are rejected until the one
whose identifier equals `pId`; that product (and everything after it) is
then evaluated against the constraints. -/
def filter : List CatalogProduct → FilterParameters → Bool → Option String → List CatalogProduct
  | [], _, _, _ => []
  | product :: rest, params, waiting, pId =>
    if (waiting && strTruthy pId) = false ∨ some product.productId = pId then
      (if productMatches params product then [product] else []) ++
        filter rest params false pId
    else
      filter rest params waiting pId

/-- Search dimension of the constraint conjunction: inactive (absent or
empty search text) means satisfied. -/
def searchDim (params : FilterParameters) (product : CatalogProduct) : Bool :=
  match params.search with
  | none => true
  | some s => if s = "" then true else searchHit s product

/-- Minimum-price dimension: satisfied unless the parsed price is below an
active bound. -/
def priceMinDim (params : FilterParameters) (product : CatalogProduct) : Bool :=
  !(jsLt (jsParsedPrice product.price) params.minPrice)

/-- Maximum-price dimension. -/
def priceMaxDim (params : FilterParameters) (product : CatalogProduct) : Bool :=
  !(jsGt (jsParsedPrice product.price) params.maxPrice)

/-- Minimum-rating dimension. -/
def ratingMinDim (params : FilterParameters) (product : CatalogProduct) : Bool :=
  !(jsLt product.reviewRating params.minReviewRating)

/-- Maximum-rating dimension. -/
def ratingMaxDim (params : FilterParameters) (product : CatalogProduct) : Bool :=
  !(jsGt product.reviewRating params.maxReviewRating)

/-- Minimum-review-count dimension. -/
def countMinDim (params : FilterParameters) (product : CatalogProduct) : Bool :=
  !(jsLt product.reviewCount params.minReviewCount)

/-- Maximum-review-count dimension. -/
def countMaxDim (params : FilterParameters) (product : CatalogProduct) : Bool :=
  !(jsGt product.reviewCount params.maxReviewCount)

/-- Stock dimension: an inactive (absent or false) in-stock constraint is
satisfied by every product. -/
def stockDim (params : FilterParameters) (product : CatalogProduct) : Bool :=
  !(params.inStock.getD false) || product.inStock

/-- Constraint set with every field absent. -/
def noConstraints : FilterParameters :=
  ⟨none, none, none, none, none, none, none, none⟩

/-- Upstream response shape (`CatalogResponse`, src lines 22-30).
The page number is echoed by the upstream service and used for the
last-page arithmetic on src line 189. -/
structure CatalogResponse where
  products : List CatalogProduct
  totalProducts : Nat
  pageNumber : Int
  pageSize : Nat
deriving Repr, DecidableEq

/-- Per-output-page resume marker (`FilterPageData`, src lines 68-75). -/
structure FilterPageData where
  nextProductId : Option String
  startPage : Int
  filterPage : Int
  pageSize : Nat
deriving Repr, DecidableEq

/-- Continuation state (`FilterData`, src lines 77-83).  A JavaScript
object with exactly the keys `pageData`, `knownProducts`, `allDone`;
`allDone` absent on a fresh object is falsy, hence `false` here. -/
structure FilterData where
  pageData : List FilterPageData
  knownProducts : Nat
  allDone : Bool
deriving Repr, DecidableEq

/-- Outcome of running the embedded engine: a value, a failed upstream
fetch (the promise rejection propagating to the catch block of the route handler),
or fuel exhaustion (the JavaScript do/while would still be iterating). -/
inductive RunResult (α : Type) where
  | done : α → RunResult α
  | fetchErr : RunResult α
  | noFuel : RunResult α
deriving Repr, DecidableEq

/-- JavaScript array indexing `l[i]` for the marker list: `undefined`
(`none`) outside the bounds, including negative indices. -/
def jsIndex (l : List FilterPageData) (i : Int) : Option FilterPageData :=
  if h : 0 ≤ i ∧ i.toNat < l.length then some (l.get ⟨i.toNat, h.2⟩) else none

/-- JavaScript assignment `l[0] = v` on an array: overwrites the head, or
creates a one-element array when `l` is empty (src line 168). -/
def jsSet0 (l : List FilterPageData) (v : FilterPageData) : List FilterPageData :=
  match l with
  | [] => [v]
  | _ :: t => v :: t

/-- Default continuation state `{ pageData: [], knownProducts: 0 }`
created when the request body carries none (src line 151). -/
def defaultFD : FilterData :=
  { pageData := [], knownProducts := 0, allDone := false }

/-- Default first-page marker `page1` (src lines 156-161). -/
def page1Marker (pagesz : Nat) : FilterPageData :=
  { nextProductId := none, startPage := 1, filterPage := 1, pageSize := pagesz }

/-- Resume point for the requested output page (src line 162): the marker
at index `pagenumber - 1`, or the default first-page marker when that slot
is empty (`filterData` itself is an object, hence always truthy). -/
def starterOf (fd : FilterData) (pageno pagesz : Nat) : FilterPageData :=
  (jsIndex fd.pageData ((pageno : Int) - 1)).getD (page1Marker pagesz)

/-- Reading the property `length` off a `FilterData` object (src line 167):
the keys of the object are `pageData`, `knownProducts` and `allDone`, so the
lookup yields `undefined` for every such object. -/
def jsLengthProp : FilterData → Option Nat := fun _ => none

/-- JavaScript truthiness of an optional number. -/
def jsTruthyNat : Option Nat → Bool
  | none => false
  | some k => decide (k ≠ 0)

/-- Seeding step (src lines 167-168): `if (!filterData.length)` overwrite
the marker at index 0 with the default first-page marker. -/
def seedFD (fd : FilterData) (pagesz : Nat) : FilterData :=
  if jsTruthyNat (jsLengthProp fd) then fd
  else { fd with pageData := jsSet0 fd.pageData (page1Marker pagesz) }

/-- Inner do/while loop (src lines 176-194): advance the upstream cursor,
fetch, filter (skip logic active only on the very first fetched page of
this output page), accumulate, and stop once the buffer holds at least
`pagesz` matches or the fetched page was the last one
(`result.pageNumber * pagesz >= result.totalProducts`, src line 189).
Returns the buffer, the cursor after the loop, and the final `lastPage`. -/
def innerLoop (fetch : Int → Nat → Except Unit CatalogResponse)
    (params : FilterParameters) (pagesz : Nat) (pId : Option String) :
    Nat → Int → List CatalogProduct → Bool → RunResult (List CatalogProduct × Int × Bool)
  | 0, _, _, _ => .noFuel
  | ifuel + 1, cPage, acc, firstLoop =>
    let cPage2 := cPage + 1
    match fetch cPage2 pagesz with
    | .error _ => .fetchErr
    | .ok result =>
      let lastPage := decide (result.pageNumber * (pagesz : Int) ≥ (result.totalProducts : Int))
      let products := filter result.products params firstLoop pId
      let data := acc ++ products
      if data.length < pagesz ∧ lastPage = false then
        innerLoop fetch params pagesz pId ifuel cPage2 data false
      else
        .done (data, cPage2, lastPage)

/-- Marker-creation block (src lines 196-221), run once per output-page
ordinal after the inner loop.  Guarded by `!(allDone || pageData[page])`.
In the split branch (buffer strictly longer than `pagesz`) it records the
first excess match as resume identifier, stores the just-fetched page as
`startPage`, decrements the cursor so that page is fetched again for the
next ordinal, and truncates the buffer; in the edge branch it records no
resume identifier and stores the current cursor unchanged.  Returns the
updated state, the (possibly truncated) buffer, the cursor and the resume
identifier variable. -/
def recordMarker (fd : FilterData) (page : Int) (pagesz : Nat)
    (data : List CatalogProduct) (cPage : Int) (lastPage : Bool) (pId : Option String) :
    FilterData × List CatalogProduct × Int × Option String :=
  if fd.allDone = false ∧ jsIndex fd.pageData page = none then
    if h : pagesz < data.length then
      let npid := (data.get ⟨pagesz, h⟩).productId
      ({ pageData := fd.pageData ++
          [{ nextProductId := some npid, startPage := cPage,
             filterPage := page + 1, pageSize := pagesz }],
         knownProducts := fd.knownProducts + pagesz,
         allDone := lastPage },
       data.take pagesz, cPage - 1, some npid)
    else
      ({ pageData := fd.pageData ++
          [{ nextProductId := none, startPage := cPage,
             filterPage := page + 1, pageSize := pagesz }],
         knownProducts := fd.knownProducts + data.length,
         allDone := lastPage },
       data, cPage, pId)
  else
    (fd, data, cPage, pId)

/-- Outer for loop over output-page ordinals (src lines 171-222): while
`page <= pageno` and the completion flag is unset, run the inner loop with
a fresh buffer and then the marker-creation block, threading the cursor and
the resume-identifier variable.  The structural `Nat` argument only bounds
the iteration count; each recursive step increases `page` by one exactly as
the `++page` of the source does. -/
def outerLoop (fetch : Int → Nat → Except Unit CatalogResponse)
    (params : FilterParameters) (pageno pagesz ifuel : Nat) :
    Nat → Int → FilterData → Int → Option String → List CatalogProduct →
    RunResult (List CatalogProduct × FilterData)
  | 0, page, fd, _, _, data =>
    if page ≤ (pageno : Int) ∧ fd.allDone = false then .noFuel else .done (data, fd)
  | n + 1, page, fd, cPage, pId, data =>
    if page ≤ (pageno : Int) ∧ fd.allDone = false then
      match innerLoop fetch params pagesz pId ifuel cPage [] true with
      | .noFuel => .noFuel
      | .fetchErr => .fetchErr
      | .done (data2, cPage2, lastPage) =>
        let r := recordMarker fd page pagesz data2 cPage2 lastPage pId
        outerLoop fetch params pageno pagesz ifuel n (page + 1) r.1 r.2.2.1 r.2.2.2 r.2.1
    else .done (data, fd)

/-- The pagination engine: body of the route handler up to the response
(src lines 150-222).  The resume point is read from the caller-supplied
state before the seeding step overwrites marker 0 (source order: line 162
before line 167); the cursor starts one page before the value of
`startPage` because the inner loop pre-increments it. -/
def getPage (fetch : Int → Nat → Except Unit CatalogResponse) (fuel : Nat)
    (pageno pagesz : Nat) (params : FilterParameters) (fdO : Option FilterData) :
    RunResult (List CatalogProduct × FilterData) :=
  outerLoop fetch params pageno pagesz fuel fuel
    (starterOf (fdO.getD defaultFD) pageno pagesz).filterPage
    (seedFD (fdO.getD defaultFD) pagesz)
    ((starterOf (fdO.getD defaultFD) pageno pagesz).startPage - 1)
    (starterOf (fdO.getD defaultFD) pageno pagesz).nextProductId
    []

/-- Route parameters of `/filter/:pagenumber/:pagesize`: the two declared
(lowercase) path segments. -/
structure RouteParams where
  pagenumber : Nat
  pagesize : Nat
deriving Repr, DecidableEq

/-- Reading `req.params.pageNumber` (src line 227): property names are
case-sensitive and the route only declares `pagenumber`, so the lookup
yields `undefined` for every request. -/
def jsParamsPageNumber : RouteParams → Option Nat := fun _ => none

/-- Response payload (src lines 224-231).  `pageNumber` is optional
because the source reads an absent property for it. -/
structure FilterResponse where
  products : List CatalogProduct
  totalProducts : Nat
  pageNumber : Option Nat
  pageSize : Nat
  statusCode : Nat
  filterData : FilterData
deriving Repr, DecidableEq

/-- Whole route handler (src lines 147-239): on success `res.send` the
payload; on any thrown error the catch block (lines 236-238) only logs, so
no response is produced (`none`); fuel exhaustion likewise produces no
response (the JavaScript loop has not finished). -/
def handler (fetch : Int → Nat → Except Unit CatalogResponse) (fuel : Nat)
    (pagenumber pagesize : Nat) (params : FilterParameters) (fdO : Option FilterData) :
    Option FilterResponse :=
  match getPage fetch fuel pagenumber pagesize params fdO with
  | .done (data, fd) =>
    some { products := data, totalProducts := fd.knownProducts,
           pageNumber := jsParamsPageNumber ⟨pagenumber, pagesize⟩,
           pageSize := pagesize, statusCode := 200, filterData := fd }
  | .fetchErr => none
  | .noFuel => none

/-- Modelled from the spec: the upstream catalog service behind
`getCatalog` (src lines 38-65) is external to the repository; per the spec
(CatalogSource, CatalogPage) it serves 1-based fixed-size slices of one
fixed product list, echoes the requested page number and size, and reports
the authoritative total product count.  Pages outside the 1-based range
carry no products. -/
def catFetch (cat : List CatalogProduct) : Int → Nat → Except Unit CatalogResponse :=
  fun pageno pagesz =>
    .ok { products := if 1 ≤ pageno then (cat.drop ((pageno - 1).toNat * pagesz)).take pagesz else [],
          totalProducts := cat.length,
          pageNumber := pageno,
          pageSize := pagesz }

/-- Fetch that always fails, modelling an unreachable upstream or an
undecodable body (the rejection paths of src lines 38-65). -/
def failFetch : Int → Nat → Except Unit CatalogResponse := fun _ _ => .error ()

/-- Fetch that serves the catalog for page 1 only and fails beyond it,
used to observe whether the engine consults upstream pages past the
resume point. -/
def fetchOnly1 (cat : List CatalogProduct) : Int → Nat → Except Unit CatalogResponse :=
  fun p sz => if p ≤ 1 then catFetch cat p sz else .error ()

/-- Slicing a list into chunks of `n` (a page size in [1, 30]); `n = 0`
yields no chunks. -/
def chunksOf : Nat → List CatalogProduct → List (List CatalogProduct)
  | _, [] => []
  | 0, _ :: _ => []
  | n + 1, x :: xs => (x :: xs.take n) :: chunksOf (n + 1) (xs.drop n)
termination_by _ l => l.length
decreasing_by simp [List.length_drop]; omega

/-- Modelled from the spec (refinement comparator for pagination
completeness): filter the entire catalog once, in catalog order, and slice
the result into pageSize-sized chunks. -/
def specFilterSlices (cat : List CatalogProduct) (params : FilterParameters)
    (pagesz : Nat) : List (List CatalogProduct) :=
  chunksOf pagesz (filter cat params false none)

/-- Contiguity of a marker list starting at ordinal `k`. -/
def contigFrom : Int → List FilterPageData → Bool
  | _, [] => true
  | k, m :: t => (m.filterPage == k) && contigFrom (k + 1) t

/-- Contiguity invariant of the spec: the marker at index `i` carries
`filterPage = i + 1`. -/
def contiguous (l : List FilterPageData) : Bool := contigFrom 1 l

/-- Concrete product used in the worked counterexamples. -/
def prodA : CatalogProduct :=
  { productId := "A", productName := some ("Alpha"), shortDescription := some (""),
    longDescription := some (""), price := "1", reviewRating := some 3,
    reviewCount := some 5, inStock := true }

/-- Second concrete product. -/
def prodB : CatalogProduct :=
  { productId := "B", productName := some ("Beta"), shortDescription := some (""),
    longDescription := some (""), price := "2", reviewRating := some 4,
    reviewCount := some 7, inStock := true }

/-- Third concrete product. -/
def prodC : CatalogProduct :=
  { productId := "C", productName := some ("Gamma"), shortDescription := some (""),
    longDescription := some (""), price := "3", reviewRating := some 2,
    reviewCount := some 1, inStock := false }

/-- One-product catalog. -/
def cat1 : List CatalogProduct := [prodA]

/-- Two-product catalog. -/
def cat2 : List CatalogProduct := [prodA, prodB]

/-- Marker at index `i` of a contiguous-from-`k` list carries ordinal
`k + i`. -/
theorem contigFrom_get (l : List FilterPageData) : ∀ (k : Int) (i : Nat) (hi : i < l.length),
    contigFrom k l = true → (l.get ⟨i, hi⟩).filterPage = k + i := by
  induction l with
  | nil => intro k i hi _; simp at hi
  | cons m t ih =>
    intro k i hi hc
    rw [contigFrom, Bool.and_eq_true, beq_iff_eq] at hc
    cases i with
    | zero => simpa using hc.1
    | succ j =>
      have hj := ih (k + 1) j (by simpa using hi) hc.2
      simp only [List.get]
      rw [hj]
      push_cast
      ring

/-- Appending one marker to a contiguous-from-`k` list stays contiguous
exactly when the new marker carries the next ordinal. -/
theorem contigFrom_append (k : Int) (l : List FilterPageData) (m : FilterPageData) :
    contigFrom k (l ++ [m]) = (contigFrom k l && (m.filterPage == k + l.length)) := by
  induction l generalizing k with
  | nil => simp [contigFrom]
  | cons a t ih =>
    simp only [List.cons_append, contigFrom, List.append_eq, ih (k + 1), Bool.and_assoc,
      List.length_cons]
    have hcast : k + 1 + (t.length : Int) = k + ((t.length + 1 : Nat) : Int) := by
      push_cast
      ring
    rw [hcast]

/-- Out-of-range indexing on a nonnegative index means the index reaches
the length. -/
theorem jsIndex_none_ge (l : List FilterPageData) (i : Int) (h0 : 0 ≤ i)
    (h : jsIndex l i = none) : (l.length : Int) ≤ i := by
  unfold jsIndex at h
  split at h
  · exact absurd h (by simp)
  · rename_i hn
    omega

/-- In-range indexing bounds the index. -/
theorem jsIndex_some_lt (l : List FilterPageData) (i : Int) (m : FilterPageData)
    (h : jsIndex l i = some m) : 0 ≤ i ∧ i < (l.length : Int) := by
  unfold jsIndex at h
  split at h
  · rename_i hp
    exact ⟨hp.1, by omega⟩
  · exact absurd h (by simp)

/-- The seeding step always fires (the length property is never present)
and is exactly the head overwrite. -/
theorem seedFD_eq (fd : FilterData) (pagesz : Nat) :
    seedFD fd pagesz = { fd with pageData := jsSet0 fd.pageData (page1Marker pagesz) } := by
  simp [seedFD, jsTruthyNat, jsLengthProp]

/-- Head overwrite with the default first-page marker preserves
contiguity. -/
theorem jsSet0_contig (l : List FilterPageData) (pagesz : Nat) (hc : contiguous l = true) :
    contiguous (jsSet0 l (page1Marker pagesz)) = true := by
  cases l with
  | nil => simp [contiguous, contigFrom, jsSet0, page1Marker]
  | cons a t =>
    unfold contiguous at hc ⊢
    rw [contigFrom, Bool.and_eq_true] at hc
    simp only [jsSet0, contigFrom, page1Marker, Bool.and_eq_true]
    exact ⟨by simp, hc.2⟩

/-- Length after the head overwrite. -/
theorem jsSet0_length (l : List FilterPageData) (v : FilterPageData) :
    (jsSet0 l v).length = max 1 l.length := by
  cases l <;> simp [jsSet0]

/-- Head after the head overwrite. -/
theorem jsSet0_head (l : List FilterPageData) (v : FilterPageData) :
    (jsSet0 l v).head? = some v := by
  cases l <;> rfl

/-- The head overwrite never yields an empty list. -/
theorem jsSet0_ne_nil (l : List FilterPageData) (v : FilterPageData) :
    jsSet0 l v ≠ [] := by
  cases l <;> simp [jsSet0]

/-- On a contiguous marker list the resume point is either the default
first-page marker (ordinal 1) or the stored marker for the requested page,
whose ordinal equals the page number. -/
theorem starterOf_filterPage (fd : FilterData) (pageno pagesz : Nat)
    (hc : contiguous fd.pageData = true) :
    (starterOf fd pageno pagesz).filterPage = 1 ∨
    ((starterOf fd pageno pagesz).filterPage = (pageno : Int) ∧
      1 ≤ pageno ∧ pageno ≤ fd.pageData.length) := by
  unfold starterOf
  cases hj : jsIndex fd.pageData ((pageno : Int) - 1) with
  | none => left; simp [page1Marker]
  | some m =>
    right
    obtain ⟨h0, hlt⟩ := jsIndex_some_lt _ _ _ hj
    unfold jsIndex at hj
    split at hj
    · rename_i hp
      have hg := contigFrom_get fd.pageData 1 (((pageno : Int) - 1).toNat) hp.2 hc
      have hm : m = fd.pageData.get ⟨((pageno : Int) - 1).toNat, hp.2⟩ := by
        cases hj
        rfl
      refine ⟨?_, by omega, by omega⟩
      simp only [Option.getD]
      rw [hm, hg]
      omega
    · exact absurd hj (by simp)

/-- Marker creation preserves contiguity and the index bound: starting
from a contiguous list whose length is at least `page`, the resulting list
is contiguous, and while the completion flag stays unset its length
reaches `page + 1`. -/
theorem recordMarker_contig (fd : FilterData) (page : Int) (pagesz : Nat)
    (data : List CatalogProduct) (cPage : Int) (lastPage : Bool) (pId : Option String)
    (hc : contiguous fd.pageData = true) (h1 : 1 ≤ page)
    (h2 : page ≤ (fd.pageData.length : Int)) :
    contiguous (recordMarker fd page pagesz data cPage lastPage pId).1.pageData = true ∧
    ((recordMarker fd page pagesz data cPage lastPage pId).1.allDone = false →
      1 ≤ page + 1 ∧
        page + 1 ≤ ((recordMarker fd page pagesz data cPage lastPage pId).1.pageData.length : Int)) := by
  unfold recordMarker
  by_cases hg : fd.allDone = false ∧ jsIndex fd.pageData page = none
  · rw [if_pos hg]
    have hge := jsIndex_none_ge fd.pageData page (by omega) hg.2
    have hpage : page = (fd.pageData.length : Int) := le_antisymm h2 hge
    by_cases hl : pagesz < data.length
    · rw [dif_pos hl]
      refine ⟨?_, fun _ => ⟨by omega, by simp [List.length_append]; omega⟩⟩
      unfold contiguous at hc ⊢
      rw [contigFrom_append, Bool.and_eq_true, beq_iff_eq]
      exact ⟨hc, by simp; omega⟩
    · rw [dif_neg hl]
      refine ⟨?_, fun _ => ⟨by omega, by simp [List.length_append]; omega⟩⟩
      unfold contiguous at hc ⊢
      rw [contigFrom_append, Bool.and_eq_true, beq_iff_eq]
      exact ⟨hc, by simp; omega⟩
  · rw [if_neg hg]
    dsimp only
    refine ⟨hc, fun hd => ⟨by omega, ?_⟩⟩
    have hj : jsIndex fd.pageData page ≠ none := by
      intro hn
      exact hg ⟨hd, hn⟩
    obtain ⟨m, hm⟩ := Option.ne_none_iff_exists.mp hj
    have := jsIndex_some_lt fd.pageData page m hm.symm
    omega

/-- The outer pagination loop preserves contiguity of the marker list. -/
theorem outerLoop_contig (fetch : Int → Nat → Except Unit CatalogResponse)
    (params : FilterParameters) (pageno pagesz ifuel : Nat) :
    ∀ (n : Nat) (page : Int) (fd : FilterData) (cPage : Int) (pId : Option String)
      (data d : List CatalogProduct) (fd2 : FilterData),
      contiguous fd.pageData = true →
      (fd.allDone = false → 1 ≤ page ∧ page ≤ (fd.pageData.length : Int)) →
      outerLoop fetch params pageno pagesz ifuel n page fd cPage pId data = .done (d, fd2) →
      contiguous fd2.pageData = true := by
  intro n
  induction n with
  | zero =>
    intro page fd cPage pId data d fd2 hc _ hrun
    unfold outerLoop at hrun
    split at hrun
    · exact absurd hrun (by simp)
    · cases hrun
      exact hc
  | succ n ih =>
    intro page fd cPage pId data d fd2 hc hinv hrun
    unfold outerLoop at hrun
    split at hrun
    · rename_i hcond
      cases hi : innerLoop fetch params pagesz pId ifuel cPage [] true with
      | noFuel => rw [hi] at hrun; exact absurd hrun (by simp)
      | fetchErr => rw [hi] at hrun; exact absurd hrun (by simp)
      | done t =>
        obtain ⟨data2, cPage2, lastPage⟩ := t
        rw [hi] at hrun
        dsimp only at hrun
        have hb := hinv hcond.2
        have hrm := recordMarker_contig fd page pagesz data2 cPage2 lastPage pId hc hb.1 hb.2
        exact ih (page + 1) _ _ _ _ d fd2 hrm.1 hrm.2 hrun
    · cases hrun
      exact hc

/-- C8: the engine preserves the marker contiguity invariant — whenever it
returns at all, for any fetch behaviour and any fuel, the updated marker
list satisfies `pageData[i].filterPage = i + 1` provided the supplied
prior state did. -/
theorem C8_contiguity_preserved (fetch : Int → Nat → Except Unit CatalogResponse)
    (fuel pageno pagesz : Nat) (params : FilterParameters) (fdO : Option FilterData)
    (d : List CatalogProduct) (fd2 : FilterData)
    (hc : contiguous (fdO.getD defaultFD).pageData = true)
    (h : getPage fetch fuel pageno pagesz params fdO = .done (d, fd2)) :
    contiguous fd2.pageData = true := by
  unfold getPage at h
  rw [seedFD_eq] at h
  refine outerLoop_contig fetch params pageno pagesz fuel fuel
    (starterOf (fdO.getD defaultFD) pageno pagesz).filterPage _ _ _ _ d fd2
    ?_ ?_ h
  · exact jsSet0_contig _ pagesz hc
  · intro _
    rcases starterOf_filterPage (fdO.getD defaultFD) pageno pagesz hc with hs | hs
    · rw [hs]
      simp only [jsSet0_length]
      omega
    · rw [hs.1]
      simp only [jsSet0_length]
      omega

/-- Witness for C8_contiguity_preserved on a concrete run from an empty
prior state. -/
theorem C8_contiguity_preserved_witness :
    contiguous (⟨[⟨none, 1, 1, 1⟩, ⟨none, 1, 2, 1⟩], 1, false⟩ : FilterData).pageData = true :=
  C8_contiguity_preserved (catFetch cat2) 10 1 1 noConstraints none [prodA]
    ⟨[⟨none, 1, 1, 1⟩, ⟨none, 1, 2, 1⟩], 1, false⟩ (by decide) (by decide)

/-- Marker creation never touches the head of a nonempty marker list and
keeps it nonempty. -/
theorem recordMarker_head (fd : FilterData) (page : Int) (pagesz : Nat)
    (data : List CatalogProduct) (cPage : Int) (lastPage : Bool) (pId : Option String)
    (h : fd.pageData ≠ []) :
    (recordMarker fd page pagesz data cPage lastPage pId).1.pageData.head? = fd.pageData.head? ∧
    (recordMarker fd page pagesz data cPage lastPage pId).1.pageData ≠ [] := by
  unfold recordMarker
  by_cases hg : fd.allDone = false ∧ jsIndex fd.pageData page = none
  · rw [if_pos hg]
    by_cases hl : pagesz < data.length
    · rw [dif_pos hl]
      dsimp only
      cases hfd : fd.pageData with
      | nil => exact absurd hfd h
      | cons a t => simp [hfd]
    · rw [dif_neg hl]
      dsimp only
      cases hfd : fd.pageData with
      | nil => exact absurd hfd h
      | cons a t => simp [hfd]
  · rw [if_neg hg]
    exact ⟨rfl, h⟩

/-- The outer pagination loop never touches the head of a nonempty marker
list. -/
theorem outerLoop_head (fetch : Int → Nat → Except Unit CatalogResponse)
    (params : FilterParameters) (pageno pagesz ifuel : Nat) :
    ∀ (n : Nat) (page : Int) (fd : FilterData) (cPage : Int) (pId : Option String)
      (data d : List CatalogProduct) (fd2 : FilterData),
      fd.pageData ≠ [] →
      outerLoop fetch params pageno pagesz ifuel n page fd cPage pId data = .done (d, fd2) →
      fd2.pageData.head? = fd.pageData.head? := by
  intro n
  induction n with
  | zero =>
    intro page fd cPage pId data d fd2 _ hrun
    unfold outerLoop at hrun
    split at hrun
    · exact absurd hrun (by simp)
    · cases hrun
      rfl
  | succ n ih =>
    intro page fd cPage pId data d fd2 hne hrun
    unfold outerLoop at hrun
    split at hrun
    · cases hi : innerLoop fetch params pagesz pId ifuel cPage [] true with
      | noFuel => rw [hi] at hrun; exact absurd hrun (by simp)
      | fetchErr => rw [hi] at hrun; exact absurd hrun (by simp)
      | done t =>
        obtain ⟨data2, cPage2, lastPage⟩ := t
        rw [hi] at hrun
        dsimp only at hrun
        have hh := recordMarker_head fd page pagesz data2 cPage2 lastPage pId hne
        have hrec := ih (page + 1) _ _ _ _ d fd2 hh.2 hrun
        rw [hrec, hh.1]
    · cases hrun
      rfl

/-- C10: the length check of src line 167 reads a property that no
`FilterData` object carries, so the seeding always fires: whatever prior
continuation state the caller supplies, any state the engine returns has
the default page-1 marker (no resume identifier, startPage 1,
filterPage 1, the current page size) at index 0. -/
theorem C10_always_reseeded (fetch : Int → Nat → Except Unit CatalogResponse)
    (fuel pageno pagesz : Nat) (params : FilterParameters) (fdO : Option FilterData)
    (d : List CatalogProduct) (fd2 : FilterData)
    (h : getPage fetch fuel pageno pagesz params fdO = .done (d, fd2)) :
    jsLengthProp (fdO.getD defaultFD) = none ∧
    fd2.pageData.head? = some (page1Marker pagesz) := by
  refine ⟨rfl, ?_⟩
  unfold getPage at h
  rw [seedFD_eq] at h
  have hh := outerLoop_head fetch params pageno pagesz fuel fuel
    (starterOf (fdO.getD defaultFD) pageno pagesz).filterPage _ _ _ _ d fd2
    (jsSet0_ne_nil _ _) h
  rw [hh]
  exact jsSet0_head _ _

/-- Witness for C10_always_reseeded: a caller-free first call still comes
back with the default page-1 marker in slot 0. -/
theorem C10_always_reseeded_witness :
    jsLengthProp (Option.getD none defaultFD) = none ∧
    (⟨[⟨none, 1, 1, 1⟩, ⟨none, 1, 2, 1⟩], 1, false⟩ : FilterData).pageData.head? =
      some (page1Marker 1) :=
  C10_always_reseeded (catFetch cat2) 10 1 1 noConstraints none [prodA]
    ⟨[⟨none, 1, 1, 1⟩, ⟨none, 1, 2, 1⟩], 1, false⟩ (by decide)

/-- With page size 0 the inner loop performs exactly one (empty) fetch and
stops, because a zero-length buffer is never shorter than a zero page
size. -/
theorem innerLoop_pagesize_zero (cat : List CatalogProduct) (params : FilterParameters)
    (pId : Option String) (ifuel : Nat) (hf : 0 < ifuel) (cPage : Int) :
    innerLoop (catFetch cat) params 0 pId ifuel cPage [] true =
      .done ([], cPage + 1, decide ((cPage + 1) * ((0 : Nat) : Int) ≥ (cat.length : Int))) := by
  obtain ⟨f, rfl⟩ : ∃ f, ifuel = f + 1 := ⟨ifuel - 1, by omega⟩
  unfold innerLoop catFetch
  simp [filter]

/-- Marker creation leaves an empty buffer empty. -/
theorem recordMarker_nil_data (fd : FilterData) (page : Int) (c : Int) (lp : Bool)
    (pId : Option String) :
    (recordMarker fd page 0 [] c lp pId).2.1 = [] := by
  unfold recordMarker
  by_cases hg : fd.allDone = false ∧ jsIndex fd.pageData page = none
  · rw [if_pos hg, dif_neg (by simp)]
  · rw [if_neg hg]

/-- With page size 0 the outer loop terminates (given fuel covering the
page range) and returns an empty buffer. -/
theorem outerLoop_pagesize_zero (cat : List CatalogProduct) (params : FilterParameters)
    (pageno ifuel : Nat) (hf : 0 < ifuel) :
    ∀ (n : Nat) (page : Int) (fd : FilterData) (cPage : Int) (pId : Option String),
      ((pageno : Int) + 1 - page).toNat ≤ n →
      ∃ fd2, outerLoop (catFetch cat) params pageno 0 ifuel n page fd cPage pId [] =
        .done ([], fd2) := by
  intro n
  induction n with
  | zero =>
    intro page fd cPage pId hn
    unfold outerLoop
    rw [if_neg (by rintro ⟨hp, _⟩; omega)]
    exact ⟨fd, rfl⟩
  | succ n ih =>
    intro page fd cPage pId hn
    by_cases hcond : page ≤ (pageno : Int) ∧ fd.allDone = false
    · have hinner := innerLoop_pagesize_zero cat params pId ifuel hf cPage
      unfold outerLoop
      rw [if_pos hcond, hinner]
      dsimp only
      rw [recordMarker_nil_data]
      exact ih (page + 1) _ _ _ (by omega)
    · unfold outerLoop
      rw [if_neg hcond]
      exact ⟨fd, rfl⟩

/-- C4 (amended): a request with page size 0 terminates and yields an
empty product list, for any catalog, any target page and any
(contiguity-respecting) prior state, given fuel beyond the page count.
The upstream cursor, however, does advance (see the counterexample). -/
theorem C4_pagesize_zero_terminates (cat : List CatalogProduct) (pageno fuel : Nat)
    (params : FilterParameters) (fdO : Option FilterData)
    (hf : pageno < fuel) (hc : contiguous (fdO.getD defaultFD).pageData = true) :
    ∃ fd2, getPage (catFetch cat) fuel pageno 0 params fdO = .done ([], fd2) := by
  unfold getPage
  apply outerLoop_pagesize_zero cat params pageno fuel (by omega)
  rcases starterOf_filterPage (fdO.getD defaultFD) pageno 0 hc with hs | hs
  · rw [hs]
    omega
  · obtain ⟨hfp, h1, _⟩ := hs
    rw [hfp]
    omega

/-- Witness for C4_pagesize_zero_terminates at a concrete catalog. -/
theorem C4_pagesize_zero_terminates_witness :
    ∃ fd2, getPage (catFetch cat2) 5 2 0 noConstraints none = .done ([], fd2) :=
  C4_pagesize_zero_terminates cat2 2 5 noConstraints none (by decide) (by decide)

/-- C1: requesting output pages 1..K sequentially, resubmitting the
returned continuation state each time, is claimed to concatenate to the
full-filter sequence sliced into pageSize chunks, with no repeat and no
skip.  Evaluating the engine on a two-product catalog with no constraints
and pageSize 1 refutes this: the edge-boundary marker records the
already-consumed upstream page as its `startPage` (src line 214 stores
`cPage` where the resume logic of src lines 162-177 expects the next
page), so the resumed second call re-serves product A and never reaches
product B, while the specification slices give [[A], [B]]. -/
theorem C1_resume_divergence :
    getPage (catFetch cat2) 10 1 1 noConstraints none =
      .done ([prodA], ⟨[⟨none, 1, 1, 1⟩, ⟨none, 1, 2, 1⟩], 1, false⟩) ∧
    getPage (catFetch cat2) 10 2 1 noConstraints
        (some ⟨[⟨none, 1, 1, 1⟩, ⟨none, 1, 2, 1⟩], 1, false⟩) =
      .done ([prodA], ⟨[⟨none, 1, 1, 1⟩, ⟨none, 1, 2, 1⟩, ⟨none, 1, 3, 1⟩], 2, false⟩) ∧
    specFilterSlices cat2 noConstraints 1 = [[prodA], [prodB]] ∧
    [prodA] ≠ [prodB] := by
  refine ⟨by decide, by decide, ?_, by decide⟩
  have hf : filter cat2 noConstraints false none = [prodA, prodB] := by decide
  unfold specFilterSlices
  rw [hf]
  simp [chunksOf]

/-- C2: the claim (and the spec) require a product whose price does not
parse to fail the price constraint whenever a price bound was supplied.
The code instead compares `NaN` with the bound, which is always false, so
the negated range checks pass: a product priced "N/A" with `minPrice = 5`
is included.  (With no bound supplied it also passes, as the second half of the claim
second half states.) -/
theorem C2_unparseable_price_passes :
    jsParsedPrice ("N/A") = none ∧
    productMatches ⟨none, some 5, none, none, none, none, none, none⟩
      ⟨"pNA", some ("Widget"), some (""), some (""), "N/A", some 4, some 10, true⟩ = true ∧
    productMatches noConstraints
      ⟨"pNA", some ("Widget"), some (""), some (""), "N/A", some 4, some 10, true⟩ = true := by
  decide

/-- C3 counterexample: on an upstream fetch failure the catch block of
the route handler only logs, so nothing at all is sent to the caller — in
particular no fetch error is surfaced, contrary to the claim. -/
theorem C3_no_error_surfaced_cex :
    getPage failFetch 5 1 3 noConstraints none = .fetchErr ∧
    handler failFetch 5 1 3 noConstraints none = none := by decide

/-- C3 (amended): whenever the engine aborts with a fetch error, the
handler produces no response whatsoever: no products, no updated
continuation state and no error payload reach the caller, so the previously-held
previously-held state is indeed untouched and no partial result is ever
returned as success. -/
theorem C3_abort_no_response (fetch : Int → Nat → Except Unit CatalogResponse)
    (fuel pageno pagesz : Nat) (params : FilterParameters) (fdO : Option FilterData)
    (h : getPage fetch fuel pageno pagesz params fdO = .fetchErr) :
    handler fetch fuel pageno pagesz params fdO = none := by
  unfold handler
  rw [h]

/-- Witness for C3_abort_no_response at a concrete failing fetch. -/
theorem C3_abort_no_response_witness :
    handler failFetch 7 2 4 noConstraints none = none :=
  C3_abort_no_response failFetch 7 2 4 noConstraints none (by decide)

/-- C4 counterexample: with pageSize 0 the inner loop still performs one
upstream fetch per output-page ordinal, so the upstream cursor does
advance past the resume point: the marker recorded for output page 3
carries `startPage = 2`, and a fetch that fails beyond page 1 makes the
whole request fail, proving upstream page 2 is consulted. -/
theorem C4_cursor_advances_cex :
    getPage (catFetch cat1) 5 2 0 noConstraints none =
      .done ([], ⟨[⟨none, 1, 1, 0⟩, ⟨none, 1, 2, 0⟩, ⟨none, 2, 3, 0⟩], 0, false⟩) ∧
    (jsIndex [⟨none, 1, 1, 0⟩, ⟨none, 1, 2, 0⟩, ⟨none, 2, 3, 0⟩] 2).map
      FilterPageData.startPage = some 2 ∧
    getPage (fetchOnly1 cat1) 5 2 0 noConstraints none = .fetchErr := by decide

/-- C5: in the split branch (buffer strictly longer than pageSize, no
marker for the next ordinal, completion flag unset) the engine appends a
marker for ordinal page+1 whose resume identifier is the first excess
match (buffer index pageSize), whose `startPage` is the cursor value of
the upstream page just fetched — the cursor itself is decremented so that
page is revisited — and the buffer is truncated to exactly pageSize
items. -/
theorem C5_split_marker (fd : FilterData) (page : Int) (pagesz : Nat)
    (data : List CatalogProduct) (cPage : Int) (lastPage : Bool) (pId : Option String)
    (hdone : fd.allDone = false) (hidx : jsIndex fd.pageData page = none)
    (hlen : pagesz < data.length) :
    recordMarker fd page pagesz data cPage lastPage pId =
      ({ pageData := fd.pageData ++
          [{ nextProductId := some ((data.get ⟨pagesz, hlen⟩).productId),
             startPage := cPage, filterPage := page + 1, pageSize := pagesz }],
         knownProducts := fd.knownProducts + pagesz, allDone := lastPage },
       data.take pagesz, cPage - 1, some ((data.get ⟨pagesz, hlen⟩).productId)) ∧
    (data.take pagesz).length = pagesz := by
  constructor
  · unfold recordMarker
    rw [if_pos ⟨hdone, hidx⟩, dif_pos hlen]
  · simp only [List.length_take]
    omega

/-- Witness for C5_split_marker on a concrete three-product buffer with
pageSize 2. -/
theorem C5_split_marker_witness :
    recordMarker ⟨[⟨none, 1, 1, 2⟩], 0, false⟩ 1 2 [prodA, prodB, prodC] 4 false none =
      (⟨[⟨none, 1, 1, 2⟩, ⟨some ("C"), 4, 2, 2⟩], 2, false⟩, [prodA, prodB], 3, some ("C")) ∧
    ([prodA, prodB] : List CatalogProduct).length = 2 := by
  have h := C5_split_marker ⟨[⟨none, 1, 1, 2⟩], 0, false⟩ 1 2 [prodA, prodB, prodC] 4
    false none (by decide) (by decide) (by decide)
  exact h

/-- C6 counterexample: with the completion flag set the engine does return
an empty product list without re-scanning, but the returned continuation
state is not unchanged: the unconditional seeding step overwrites the
marker at index 0 with the default page-1 marker for the current
page size. -/
theorem C6_state_changed_cex :
    getPage failFetch 10 7 3 noConstraints (some ⟨[⟨some ("X"), 5, 1, 9⟩], 42, true⟩) =
      .done ([], ⟨[⟨none, 1, 1, 3⟩], 42, true⟩) ∧
    (⟨[⟨none, 1, 1, 3⟩], 42, true⟩ : FilterData) ≠ ⟨[⟨some ("X"), 5, 1, 9⟩], 42, true⟩ := by
  decide

/-- C6 (amended): once the completion flag is set the pagination loop
never runs, regardless of the requested page, the fetch behaviour or the
fuel: no upstream page is consulted, no marker is appended beyond the
unconditional re-seeding of marker 0 with the default page-1 marker, the
product list is empty, and `knownProducts`, `allDone` and every marker
other than index 0 are unchanged. -/
theorem C6_allDone_no_rescan (fetch : Int → Nat → Except Unit CatalogResponse)
    (fuel pageno pagesz : Nat) (params : FilterParameters) (fd : FilterData)
    (h : fd.allDone = true) :
    getPage fetch fuel pageno pagesz params (some fd) =
      .done ([], { fd with pageData := jsSet0 fd.pageData (page1Marker pagesz) }) := by
  unfold getPage
  have hs : seedFD ((some fd).getD defaultFD) pagesz =
      { fd with pageData := jsSet0 fd.pageData (page1Marker pagesz) } := by
    simp [seedFD, jsTruthyNat, jsLengthProp, Option.getD]
  rw [hs]
  cases fuel with
  | zero =>
    unfold outerLoop
    rw [if_neg (by simp [h])]
  | succ n =>
    unfold outerLoop
    rw [if_neg (by simp [h])]

/-- Witness for C6_allDone_no_rescan at a concrete completed state. -/
theorem C6_allDone_no_rescan_witness :
    getPage failFetch 3 4 2 noConstraints (some ⟨[⟨some ("X"), 5, 1, 9⟩], 42, true⟩) =
      .done ([], ⟨[⟨none, 1, 1, 2⟩], 42, true⟩) :=
  C6_allDone_no_rescan failFetch 3 4 2 noConstraints ⟨[⟨some ("X"), 5, 1, 9⟩], 42, true⟩ rfl

/-- C7: the constraint evaluation is the conjunction of the eight
dimension predicates — a product failing any single active dimension is
excluded however the others fare — and a product evaluated with every
constraint field absent is always included. -/
theorem C7_conjunction (params : FilterParameters) (p : CatalogProduct) :
    productMatches params p =
      (searchDim params p &&
        (priceMinDim params p &&
          (priceMaxDim params p &&
            (ratingMinDim params p &&
              (ratingMaxDim params p &&
                (countMinDim params p &&
                  (countMaxDim params p && stockDim params p))))))) ∧
    productMatches noConstraints p = true := by
  constructor
  · unfold productMatches searchDim priceMinDim priceMaxDim ratingMinDim ratingMaxDim
      countMinDim countMaxDim stockDim
    cases hs : params.search with
    | none => simp [Bool.and_assoc]
    | some s => by_cases he : s = "" <;> simp [he, Bool.and_assoc]
  · rfl

/-- C9: the response is claimed to echo the requested page number and page
size.  The page size is echoed, but the page number field is always
`undefined`: the source reads `req.params.pageNumber` while the route
declares the (case-sensitive) parameter `pagenumber`. -/
theorem C9_pageNumber_not_echoed :
    jsParamsPageNumber ⟨2, 1⟩ = none ∧
    handler (catFetch cat2) 10 2 1 noConstraints none =
      some ⟨[prodB], 2, none, 1, 200,
            ⟨[⟨none, 1, 1, 1⟩, ⟨none, 1, 2, 1⟩, ⟨none, 2, 3, 1⟩], 2, true⟩⟩ := by decide

end WalmartSearch
